import Mathlib

/-!
Verification model of the market-gap-analysis pipeline.

Shallow embedding of the repository sources:
  - `market_gap_process.py` : insight extraction and the per-session pipeline,
  - `visualization.py`      : chart key selection,
  - `drive_utils.py` / `process_market_gap.py` : network call sites,
  - `app.py`                : the HTTP front door file scan.

Spreadsheets are modelled as tables of optional string cells (a `none` cell is
a pandas NaN; numeric cells are represented by their text rendering, which is
what `astype(str)` produces downstream). External effects (HTTP, Drive, file
system) are supplied through an explicit environment of fallible functions.
Python string primitives (`lower`, `endswith`, `startswith`, `in`) are
modelled at the character-list level so that they evaluate inside proofs.
-/

namespace MarketGap

/-- Python `s.lower()`, character by character. -/
def strLower (s : String) : String := ⟨s.data.map Char.toLower⟩

/-- Python `s.startswith(pre)`. -/
def strStartsWith (s pre : String) : Bool := pre.data.isPrefixOf s.data

/-- Python `s.endswith(suf)`. -/
def strEndsWith (s suf : String) : Bool := suf.data.reverse.isPrefixOf s.data.reverse

/-- Contiguous-sublist test on character lists. -/
def infixOfChars (needle : List Char) : List Char → Bool
  | [] => needle.isEmpty
  | c :: cs => needle.isPrefixOf (c :: cs) || infixOfChars needle cs

/-- Python `needle in hay` on strings. -/
def isSubstr (needle hay : String) : Bool := infixOfChars needle.data hay.data

/-- A pandas DataFrame, shallowly: named columns over rows of optional cells.
A `none` cell is NaN. -/
structure Table where
  columns : List String
  rows : List (List (Option String))
deriving Repr, DecidableEq

/-- `pd.DataFrame()` with no data. -/
def emptyTable : Table := ⟨[], []⟩

/-- Case-insensitive column lookup, following
`cols = \x7bc.lower(): c for c in df.columns\x7d` (later duplicates overwrite
earlier ones in the dict) followed by selecting `df[cols[key]]` by exact name
(first exact match; source tables have distinct column names). Returns the
index of the selected column. -/
def findColByLower (t : Table) (key : String) : Option Nat :=
  match (t.columns.filter (fun c => strLower c == key)).getLast? with
  | none => none
  | some orig => t.columns.findIdx? (fun c => c == orig)

/-- `astype(str)` on one cell: pandas renders NaN as the string "nan". -/
def cellStr : Option String → String
  | none => "nan"
  | some s => s

/-- First occurrences of each distinct value, in source order. -/
def dedupFirst (l : List String) : List String :=
  l.foldl (fun acc v => if acc.contains v then acc else acc ++ [v]) []

/-- `Series.value_counts().to_dict()`: the multiplicity of each distinct
non-null value. `value_counts` orders keys by descending count; `to_dict`
yields the same finite mapping, which we key in first-appearance order —
nothing downstream reads the key order. -/
def valueCounts (vals : List String) : List (String × Nat) :=
  (dedupFirst vals).map (fun v => (v, vals.count v))

/-- The normalized extraction result for one asset category. -/
structure Insights where
  obsolete : List String
  recommendations : List String
  tier_counts : List (String × Nat)
deriving Repr, DecidableEq

/-- The initial all-empty insight value of `extract_insights`. -/
def emptyInsights : Insights := ⟨[], [], []⟩

/-- Per-table body of `extract_insights` (market_gap_process.py lines 34-57):
  - obsolete: first-column values of rows whose `Lifecycle Status` cell,
    `astype(str).str.lower()`, equals "obsolete";
  - recommendations: `df[col].dropna().astype(str).tolist()` — all non-null
    values, in row order, duplicates and empty strings kept;
  - tier_counts: `value_counts().to_dict()` of the `Tier` column.
Each falls back to empty when the column is absent. -/
def extractTable (df : Table) : Insights :=
  let obsolete :=
    match findColByLower df "lifecycle status" with
    | none => []
    | some j =>
        (df.rows.filter (fun r => strLower (cellStr (r.getD j none)) == "obsolete")).map
          (fun r => cellStr (r.getD 0 none))
  let recommendations :=
    match findColByLower df "recommendation" with
    | none => []
    | some j => df.rows.filterMap (fun r => r.getD j none)
  let tier_counts :=
    match findColByLower df "tier" with
    | none => []
    | some j => valueCounts (df.rows.filterMap (fun r => r.getD j none))
  { obsolete := obsolete, recommendations := recommendations, tier_counts := tier_counts }

/-- A staged input file as seen by `extract_insights`: its display name and
the local path it was downloaded to. -/
structure LocalFile where
  file_name : String
  local_path : String
deriving Repr, DecidableEq

/-- Loop body of `extract_insights` (lines 24-61): skip non-xlsx paths, skip
files that fail to parse (`read` is `pd.read_excel`), classify by the
case-insensitive substrings "hw" / "sw" in the file name ("hw" checked first),
and overwrite that category with the insights of the current file. -/
def insightStep (read : String → Except String Table)
    (acc : Insights × Insights) (f : LocalFile) : Insights × Insights :=
  if !(strEndsWith (strLower f.local_path) ".xlsx") then acc
  else
    match read f.local_path with
    | .error _ => acc
    | .ok df =>
        let ins := extractTable df
        if isSubstr "hw" (strLower f.file_name) then (ins, acc.2)
        else if isSubstr "sw" (strLower f.file_name) then (acc.1, ins)
        else acc

/-- `extract_insights(local_files)` returning `(hw_insights, sw_insights)`. -/
def extract_insights (read : String → Except String Table)
    (local_files : List LocalFile) : Insights × Insights :=
  local_files.foldl (insightStep read) (emptyInsights, emptyInsights)

/-- A file counts as classified hardware when the loop body takes the "hw"
branch for it: xlsx path, successful parse, "hw" in the lowercased name. -/
def hwClassified (read : String → Except String Table) (f : LocalFile) : Bool :=
  strEndsWith (strLower f.local_path) ".xlsx" &&
    (match read f.local_path with | .ok _ => true | .error _ => false) &&
    isSubstr "hw" (strLower f.file_name)

/-- A file counts as classified software when the loop body takes the "sw"
branch: as above, but the name must not contain "hw" (that branch is checked
first) and must contain "sw". -/
def swClassified (read : String → Except String Table) (f : LocalFile) : Bool :=
  strEndsWith (strLower f.local_path) ".xlsx" &&
    (match read f.local_path with | .ok _ => true | .error _ => false) &&
    !(isSubstr "hw" (strLower f.file_name)) &&
    isSubstr "sw" (strLower f.file_name)

/-! ### visualization.py -/

/-- Stem of `os.path.splitext`: the part before the last dot, except that a
name whose characters before that dot are all dots keeps the whole name. -/
def splitextStem (s : String) : String :=
  let cs := s.data
  let ext := cs.reverse.takeWhile (fun c => c != '.')
  if ext.length = cs.length then s
  else
    let stem := cs.take (cs.length - ext.length - 1)
    if stem.all (fun c => c == '.') then s else ⟨stem⟩

/-- Shallow stand-in for `pd.api.types.is_numeric_dtype` on our string-cell
tables: a column counts as numeric when the table has rows and every cell of
the column is a non-null digit string. -/
def numericCol (df : Table) (j : Nat) : Bool :=
  !df.rows.isEmpty && df.rows.all (fun r =>
    match r.getD j none with
    | some s => !s.isEmpty && s.data.all Char.isDigit
    | none => false)

/-- Index of the first numeric column (`df.select_dtypes(include=number)`). -/
def firstNumericCol (df : Table) : Option Nat :=
  (List.range df.columns.length).find? (fun j => numericCol df j)

/-- `generate_visual_charts(data_frames, output_dir)`: which chart keys (and
image paths) are produced for each labeled DataFrame. Branches, as in the
source: a Tier pie chart when a `Tier` column exists, a Status bar chart when
a `Status` column exists, bar charts for numeric columns whose name contains
`Obsolescence` or `Gap`, and otherwise a value-count chart of the first
numeric column when no chart key for this base name exists yet. Saving the
figure is modelled as always succeeding. -/
def generate_visual_charts (data_frames : List (String × Table))
    (output_dir : String) : List (String × String) :=
  data_frames.foldl (fun charts nmdf =>
    let base := splitextStem nmdf.1
    let df := nmdf.2
    let charts :=
      if df.columns.contains "Tier" then
        charts ++ [(base ++ "_tier", output_dir ++ "/" ++ base ++ "_tier_pie.png")]
      else charts
    let charts :=
      if df.columns.contains "Status" then
        charts ++ [(base ++ "_status", output_dir ++ "/" ++ base ++ "_status_bar.png")]
      else charts
    let charts := charts ++
      df.columns.enum.filterMap (fun ic =>
        if (isSubstr "Obsolescence" ic.2 || isSubstr "Gap" ic.2) && numericCol df ic.1 then
          some (base ++ "_" ++ ic.2, output_dir ++ "/" ++ base ++ "_" ++ ic.2 ++ "_bar.png")
        else none)
    if charts.any (fun kv => strStartsWith kv.1 base) then charts
    else
      match firstNumericCol df with
      | some j =>
          let col := df.columns.getD j ""
          charts ++ [(base ++ "_" ++ col, output_dir ++ "/" ++ base ++ "_" ++ col ++ "_dist.png")]
      | none => charts) []

/-! ### market_gap_process.process_market_gap -/

/-- An input file as handed to `process_market_gap`. -/
structure InputFile where
  file_name : String
  drive_url : String
deriving Repr, DecidableEq

/-- The payload assembled for the report engine (step 6 of the source). -/
structure ReportPayload where
  session_id : String
  organization_name : String
  content : List (String × String)
  charts : List (String × String)
  appendices : List String

/-- The external world of one pipeline run: every fallible outbound effect,
as an explicit function. An `Except.error` models a raised exception
(timeout, non-2xx, I/O error, parse error). -/
structure Env where
  download_sheet_as_xlsx : String → String → Except String String
  read_excel : String → Except String Table
  upload_to_drive : String → Except String String
  post_generate_market_reports : ReportPayload → Except String (List String)
  get_url : String → Except String Unit

/-- `str(e)` of the NameError raised at payload assembly (the Python message
quotes the word sections; the quotes are elided here). -/
def nameErrorMsg : String := "name sections is not defined"

/-- `os.path.basename` of a URL (text after the last slash). -/
def basename (url : String) : String :=
  ⟨(url.data.reverse.takeWhile (fun c => c != '/')).reverse⟩

/-- `pd.DataFrame(list(tier_counts.items()), columns=['Tier', 'Count'])`:
the DataFrame the pipeline feeds to the chart renderer. Note that the named
columns exist even when `tier_counts` is empty. -/
def tierDf (tier_counts : List (String × Nat)) : Table :=
  { columns := ["Tier", "Count"],
    rows := tier_counts.map (fun p => [some p.1, some (toString p.2)]) }

/-- Step 1 of `process_market_gap` (lines 149-156): download every input in
order (a failure raises and aborts the loop), record it in `local_files`, and
read files whose name contains hw / sw into `hw_df` / `sw_df` with no
exception handling (a parse failure there also aborts). -/
def stageLoop (env : Env) (local_path : String) :
    List InputFile → List LocalFile × Table × Table →
    Except String (List LocalFile × Table × Table)
  | [], acc => .ok acc
  | f :: fs, (lfs, hw_df, sw_df) =>
    match env.download_sheet_as_xlsx f.drive_url local_path with
    | .error e => .error e
    | .ok dest =>
      let lfs := lfs ++ [⟨f.file_name, dest⟩]
      if isSubstr "hw" (strLower f.file_name) then
        match env.read_excel dest with
        | .error e => .error e
        | .ok t => stageLoop env local_path fs (lfs, t, sw_df)
      else if isSubstr "sw" (strLower f.file_name) then
        match env.read_excel dest with
        | .error e => .error e
        | .ok t => stageLoop env local_path fs (lfs, hw_df, t)
      else stageLoop env local_path fs (lfs, hw_df, sw_df)

/-- Step 3 chart upload: `\x7bk: upload_to_drive(path, folder_id) ...\x7d`;
any upload failure raises and aborts the run. -/
def uploadCharts (env : Env) :
    List (String × String) → Except String (List (String × String))
  | [] => .ok []
  | kp :: rest =>
    match env.upload_to_drive kp.2 with
    | .error e => .error e
    | .ok fid =>
      match uploadCharts env rest with
      | .error e => .error e
      | .ok tl => .ok ((kp.1, fid) :: tl)

/-- Observable trace of one `process_market_gap` run. `outcome` is the return
value: the report-engine result on success, or the `error` dictionary the
run-level handler builds from a caught exception. `extracted` is `none` when
the run aborted before step 2. `collected` lists the artifact URLs that were
both downloaded and re-published in step 8. -/
structure RunTrace where
  staged : List LocalFile
  extracted : Option (Insights × Insights)
  dispatched : Bool
  collected : List String
  outcome : Except String (List String)
deriving Repr

/-- `process_market_gap(session_id, email, files, local_path, folder_id)`.

Steps follow the source: stage inputs (failures abort), extract insights,
build the two tier DataFrames, render charts, upload charts (failures abort),
then assemble the payload. Source line 188 reads, on one physical line,
`# 5. Generate narratives via OpenAI` followed by the assignment
`sections = ...` after the comment marker; a Python comment extends to the end
of the physical line, so the assignment never executes and evaluating
`'content': sections` at line 195 raises NameError, which the run-level
handler converts to an error return. Steps 7 (dispatch) and 8 (artifact
collection) are translated below but are unreachable. -/
def process_market_gap (env : Env) (session_id email : String)
    (files : List InputFile) (local_path : String) : RunTrace :=
  match stageLoop env local_path files ([], emptyTable, emptyTable) with
  | .error e => ⟨[], none, false, [], .error e⟩
  | .ok (local_files, _hw_df, _sw_df) =>
    let ins := extract_insights env.read_excel local_files
    let data_frames := [("hardware_insights", tierDf ins.1.tier_counts),
                        ("software_insights", tierDf ins.2.tier_counts)]
    let chart_dir := local_path ++ "/market_gap_charts"
    let chart_paths := generate_visual_charts data_frames chart_dir
    match uploadCharts env chart_paths with
    | .error e => ⟨local_files, some ins, false, [], .error e⟩
    | .ok chart_ids =>
      let chart_urls := chart_ids.map (fun kf =>
        (kf.1, "https://drive.google.com/file/d/" ++ kf.2 ++ "/view?usp=drivesdk"))
      let sections : Except String (List (String × String)) :=
        .error nameErrorMsg
      match sections with
      | .error e => ⟨local_files, some ins, false, [], .error e⟩
      | .ok secs =>
        let payload : ReportPayload :=
          ⟨session_id, email, secs, chart_urls, local_files.map (·.file_name)⟩
        match env.post_generate_market_reports payload with
        | .error e => ⟨local_files, some ins, false, [], .error e⟩
        | .ok report_urls =>
          let collected := report_urls.filterMap (fun url =>
            match env.get_url url with
            | .error _ => none
            | .ok _ =>
              match env.upload_to_drive (local_path ++ "/" ++ basename url) with
              | .error _ => none
              | .ok _ => some url)
          ⟨local_files, some ins, true, collected, .ok report_urls⟩

/-! ### app.py front door -/

/-- Key of the `file_N_name` field. -/
def nameKey (i : Nat) : String := "file_" ++ toString i ++ "_name"

/-- Key of the `file_N_url` field. -/
def urlKey (i : Nat) : String := "file_" ++ toString i ++ "_url"

/-- The request keys the file scan ever consults (`for i in range(1, 10)`). -/
def recognizedFileKeys : List String :=
  (List.range' 1 9).flatMap (fun i => [nameKey i, urlKey i])

/-- One file entry passed on to the background pipeline. -/
structure FileRef where
  file_name : String
  file_url : String
deriving Repr, DecidableEq

/-- The file scan of `start_market_gap` (app.py lines 31-38): for i in
1..9, take the pair when both `file_i_name` and `file_i_url` are present.
The request body is modelled as an association list of string fields. -/
def extractFiles (data : List (String × String)) : List FileRef :=
  (List.range' 1 9).filterMap (fun i =>
    match data.lookup (nameKey i), data.lookup (urlKey i) with
    | some n, some u => some ⟨n, u⟩
    | _, _ => none)

/-- Python falsiness of an optional string field: absent or empty. -/
def falsy : Option String → Bool
  | none => true
  | some s => s == ""

/-- `start_market_gap` (app.py lines 21-60): returns the HTTP status and the
file list handed to the background thread (`none` when rejected). -/
def start_market_gap (data : List (String × String)) :
    Nat × Option (List FileRef) :=
  let session_id := data.lookup "session_id"
  let email := data.lookup "email"
  let files := extractFiles data
  if falsy session_id || falsy email || files.isEmpty then (400, none)
  else (200, some files)

/-! ### Outbound call sites and their timeouts -/

/-- One outbound network call site, with the explicit timeout argument given
at that site (`none` when the call sets no timeout). -/
structure OutboundCall where
  site : String
  timeoutSeconds : Option Nat
deriving Repr, DecidableEq

/-- The outbound network call sites of the two run-time paths, transcribed
from the source. `requests` calls without a `timeout=` argument and Google
API `execute()` calls have no explicit bounded timeout. -/
def outboundCalls : List OutboundCall :=
  [ ⟨"drive_utils.download_sheet_as_xlsx: session.get(export_url, timeout=30, stream=True)", some 30⟩,
    ⟨"drive_utils.upload_to_drive: drive_service.files().create(...).execute()", none⟩,
    ⟨"market_gap_process.process_market_gap: requests.post(REPORTS_URL/generate_market_reports, timeout=120)", some 120⟩,
    ⟨"market_gap_process.process_market_gap: requests.get(report_url, timeout=60)", some 60⟩,
    ⟨"process_market_gap.download_file: requests.get(url)", none⟩,
    ⟨"process_market_gap.get_or_create_drive_folder / upload_to_drive: drive_service.files().list or create(...).execute()", none⟩ ]

/-! ### Helper lemmas about the extractor loop -/

theorem insightStep_fst_of_not_hw (read : String → Except String Table)
    (acc : Insights × Insights) (f : LocalFile)
    (h : hwClassified read f = false) :
    (insightStep read acc f).1 = acc.1 := by
  unfold insightStep
  cases hx : strEndsWith (strLower f.local_path) ".xlsx" with
  | false => simp
  | true =>
    simp only [hx, Bool.not_true, Bool.false_eq_true, if_false]
    cases hr : read f.local_path with
    | error e => rfl
    | ok df =>
      simp only [hwClassified, hx, hr, Bool.true_and] at h
      simp only [h, Bool.false_eq_true, if_false]
      split <;> rfl

theorem insightStep_snd_of_not_sw (read : String → Except String Table)
    (acc : Insights × Insights) (f : LocalFile)
    (h : swClassified read f = false) :
    (insightStep read acc f).2 = acc.2 := by
  unfold insightStep
  cases hx : strEndsWith (strLower f.local_path) ".xlsx" with
  | false => simp
  | true =>
    simp only [hx, Bool.not_true, Bool.false_eq_true, if_false]
    cases hr : read f.local_path with
    | error e => rfl
    | ok df =>
      simp only [swClassified, hx, hr, Bool.true_and] at h
      cases hhw : isSubstr "hw" (strLower f.file_name) with
      | true => simp [hhw]
      | false =>
        simp only [hhw, Bool.not_false, Bool.true_and] at h
        simp [hhw, h]

theorem insightStep_of_hw (read : String → Except String Table)
    (acc : Insights × Insights) (f : LocalFile) (df : Table)
    (h : hwClassified read f = true) (hr : read f.local_path = .ok df) :
    insightStep read acc f = (extractTable df, acc.2) := by
  simp only [hwClassified, hr, Bool.and_eq_true, Bool.true_and] at h
  obtain ⟨hx, hhw⟩ := h
  simp [insightStep, hx, hr, hhw]

theorem insightStep_of_sw (read : String → Except String Table)
    (acc : Insights × Insights) (f : LocalFile) (df : Table)
    (h : swClassified read f = true) (hr : read f.local_path = .ok df) :
    insightStep read acc f = (acc.1, extractTable df) := by
  simp only [swClassified, hr, Bool.and_eq_true, Bool.true_and,
    Bool.not_eq_true'] at h
  obtain ⟨⟨hx, hhw⟩, hsw⟩ := h
  simp [insightStep, hx, hr, hhw, hsw]

theorem foldl_fst_of_no_hw (read : String → Except String Table) :
    ∀ (files : List LocalFile) (acc : Insights × Insights),
      (∀ f ∈ files, hwClassified read f = false) →
      (files.foldl (insightStep read) acc).1 = acc.1 := by
  intro files
  induction files with
  | nil => intro acc _; rfl
  | cons g gs ih =>
    intro acc h
    rw [List.foldl_cons, ih _ (fun f hf => h f (List.mem_cons_of_mem g hf)),
      insightStep_fst_of_not_hw read acc g (h g (List.mem_cons_self g gs))]

theorem foldl_snd_of_no_sw (read : String → Except String Table) :
    ∀ (files : List LocalFile) (acc : Insights × Insights),
      (∀ f ∈ files, swClassified read f = false) →
      (files.foldl (insightStep read) acc).2 = acc.2 := by
  intro files
  induction files with
  | nil => intro acc _; rfl
  | cons g gs ih =>
    intro acc h
    rw [List.foldl_cons, ih _ (fun f hf => h f (List.mem_cons_of_mem g hf)),
      insightStep_snd_of_not_sw read acc g (h g (List.mem_cons_self g gs))]

theorem foldl_fst_last_hw (read : String → Except String Table) :
    ∀ (files : List LocalFile) (acc : Insights × Insights) (f : LocalFile)
      (df : Table),
      (files.filter (hwClassified read)).getLast? = some f →
      read f.local_path = .ok df →
      (files.foldl (insightStep read) acc).1 = extractTable df := by
  intro files
  induction files with
  | nil => intro acc f df h _; simp at h
  | cons g gs ih =>
    intro acc f df h hr
    rw [List.foldl_cons]
    cases hg : hwClassified read g with
    | false =>
      rw [List.filter_cons_of_neg (by simp [hg])] at h
      exact ih _ f df h hr
    | true =>
      rw [List.filter_cons_of_pos (by simp [hg])] at h
      cases hfs : gs.filter (hwClassified read) with
      | nil =>
        rw [hfs] at h
        simp only [List.getLast?_singleton, Option.some.injEq] at h
        subst h
        rw [foldl_fst_of_no_hw read gs _
            (fun a ha => Bool.eq_false_iff.mpr (List.filter_eq_nil_iff.mp hfs a ha)),
          insightStep_of_hw read acc g df hg hr]
      | cons p ps =>
        rw [hfs, List.getLast?_cons_cons] at h
        rw [← hfs] at h
        exact ih _ f df h hr

theorem foldl_snd_last_sw (read : String → Except String Table) :
    ∀ (files : List LocalFile) (acc : Insights × Insights) (f : LocalFile)
      (df : Table),
      (files.filter (swClassified read)).getLast? = some f →
      read f.local_path = .ok df →
      (files.foldl (insightStep read) acc).2 = extractTable df := by
  intro files
  induction files with
  | nil => intro acc f df h _; simp at h
  | cons g gs ih =>
    intro acc f df h hr
    rw [List.foldl_cons]
    cases hg : swClassified read g with
    | false =>
      rw [List.filter_cons_of_neg (by simp [hg])] at h
      exact ih _ f df h hr
    | true =>
      rw [List.filter_cons_of_pos (by simp [hg])] at h
      cases hfs : gs.filter (swClassified read) with
      | nil =>
        rw [hfs] at h
        simp only [List.getLast?_singleton, Option.some.injEq] at h
        subst h
        rw [foldl_snd_of_no_sw read gs _
            (fun a ha => Bool.eq_false_iff.mpr (List.filter_eq_nil_iff.mp hfs a ha)),
          insightStep_of_sw read acc g df hg hr]
      | cons p ps =>
        rw [hfs, List.getLast?_cons_cons] at h
        rw [← hfs] at h
        exact ih _ f df h hr

theorem insightStep_of_read_error (read : String → Except String Table)
    (acc : Insights × Insights) (f : LocalFile) (e : String)
    (hr : read f.local_path = .error e) :
    insightStep read acc f = acc := by
  unfold insightStep
  cases hx : strEndsWith (strLower f.local_path) ".xlsx" <;> simp [hx, hr]

/-! ### Helper lemmas about the pipeline -/

theorem stageLoop_error_of_download_error (env : Env) (lp : String) :
    ∀ (files : List InputFile) (acc : List LocalFile × Table × Table)
      (f : InputFile) (e : String),
      f ∈ files → env.download_sheet_as_xlsx f.drive_url lp = .error e →
      ∃ e2, stageLoop env lp files acc = .error e2 := by
  intro files
  induction files with
  | nil => intro acc f e h _; simp at h
  | cons g gs ih =>
    intro acc f e hmem hdl
    obtain ⟨lfs, hw_df, sw_df⟩ := acc
    rcases List.mem_cons.mp hmem with heq | hmem2
    · subst heq
      rw [stageLoop, hdl]
      exact ⟨e, rfl⟩
    · rw [stageLoop]
      cases hg : env.download_sheet_as_xlsx g.drive_url lp with
      | error e3 => exact ⟨e3, rfl⟩
      | ok dest =>
        dsimp only
        cases hhw : isSubstr "hw" (strLower g.file_name) with
        | true =>
          simp only [if_true]
          cases hre : env.read_excel dest with
          | error e4 => exact ⟨e4, rfl⟩
          | ok t => exact ih _ f e hmem2 hdl
        | false =>
          simp only [Bool.false_eq_true, if_false]
          cases hsw : isSubstr "sw" (strLower g.file_name) with
          | true =>
            simp only [if_true]
            cases hre : env.read_excel dest with
            | error e4 => exact ⟨e4, rfl⟩
            | ok t => exact ih _ f e hmem2 hdl
          | false =>
            simp only [Bool.false_eq_true, if_false]
            exact ih _ f e hmem2 hdl

theorem process_never_collects (env : Env) (sid em lp : String)
    (files : List InputFile) :
    (process_market_gap env sid em files lp).dispatched = false ∧
    (process_market_gap env sid em files lp).collected = [] ∧
    ∃ e, (process_market_gap env sid em files lp).outcome = Except.error e := by
  unfold process_market_gap
  cases stageLoop env lp files ([], emptyTable, emptyTable) with
  | error e => exact ⟨rfl, rfl, e, rfl⟩
  | ok acc =>
    obtain ⟨lfs, hwdf, swdf⟩ := acc
    dsimp only
    cases uploadCharts env (generate_visual_charts
        [("hardware_insights", tierDf (extract_insights env.read_excel lfs).1.tier_counts),
         ("software_insights", tierDf (extract_insights env.read_excel lfs).2.tier_counts)]
        (lp ++ "/market_gap_charts")) with
    | error e => exact ⟨rfl, rfl, e, rfl⟩
    | ok ids => exact ⟨rfl, rfl, nameErrorMsg, rfl⟩

theorem findColByLower_eq_none (t : Table) (key : String)
    (h : ∀ c ∈ t.columns, ¬ strLower c = key) :
    findColByLower t key = none := by
  have hf : t.columns.filter (fun c => strLower c == key) = [] :=
    List.filter_eq_nil_iff.mpr (fun c hc => by simpa using h c hc)
  simp [findColByLower, hf]

theorem count_filterMap_eq_length_filter
    (g : List (Option String) → Option String) (v : String) :
    ∀ l : List (List (Option String)),
      (l.filterMap g).count v = (l.filter (fun r => g r == some v)).length := by
  intro l
  induction l with
  | nil => rfl
  | cons r rs ih =>
    cases hg : g r with
    | none =>
      rw [List.filterMap_cons_none hg, List.filter_cons_of_neg (by simp [hg]), ih]
    | some w =>
      rw [List.filterMap_cons_some hg]
      by_cases hw : w = v
      · subst hw
        rw [List.count_cons_self, List.filter_cons_of_pos (by simp [hg]),
          List.length_cons, ih]
      · rw [List.count_cons_of_ne (fun hvw => hw hvw.symm),
          List.filter_cons_of_neg (by simp [hg, hw]), ih]

theorem count_map_eq_length_filter
    (g : List (Option String) → String) (v : String) :
    ∀ l : List (List (Option String)),
      (l.map g).count v = (l.filter (fun r => g r == v)).length := by
  intro l
  induction l with
  | nil => rfl
  | cons r rs ih =>
    by_cases h : g r = v
    · rw [List.map_cons, h, List.count_cons_self,
        List.filter_cons_of_pos (by simp [h]), List.length_cons, ih]
    · rw [List.map_cons, List.count_cons_of_ne (fun hv => h hv.symm),
        List.filter_cons_of_neg (by simp [h]), ih]

theorem filterMap_congr_mem {α β : Type} (f g : α → Option β) :
    ∀ l : List α, (∀ a ∈ l, f a = g a) → l.filterMap f = l.filterMap g := by
  intro l
  induction l with
  | nil => intro _; rfl
  | cons a l ih =>
    intro h
    rw [List.filterMap_cons, List.filterMap_cons, h a (List.mem_cons_self a l),
      ih (fun x hx => h x (List.mem_cons_of_mem a hx))]

/-! ### Concrete fixtures for witnesses and counterexamples -/

def c1Env : Env :=
  { download_sheet_as_xlsx := fun u dir =>
      if u == "https://docs.google.com/d/bad" then .error "timeout"
      else .ok (dir ++ "/good.xlsx"),
    read_excel := fun _ => .ok ⟨["Item", "Tier"], [[some "a", some "1"]]⟩,
    upload_to_drive := fun _ => .ok "fid",
    post_generate_market_reports := fun _ => .ok [],
    get_url := fun _ => .ok () }

def c3Table : Table :=
  ⟨["Item", "Lifecycle Status", "Recommendation"],
   [[some "a", some "Obsolete", some "upgrade"],
    [some "a", some "Obsolete", some "upgrade"]]⟩

def c5Env : Env :=
  { download_sheet_as_xlsx := fun _ dir => .ok (dir ++ "/f.xlsx"),
    read_excel := fun _ => .ok emptyTable,
    upload_to_drive := fun _ => .ok "fid",
    post_generate_market_reports := fun _ => .error "HTTP 500",
    get_url := fun _ => .ok () }

def c6TableA : Table := ⟨["Item", "Tier"], [[some "x", some "1"]]⟩

def c6TableB : Table := ⟨["Item", "Tier"], [[some "y", some "2"]]⟩

def c6Read : String → Except String Table := fun p =>
  if p == "a.xlsx" then .ok c6TableA
  else if p == "b.xlsx" then .ok c6TableB
  else .error "parse error"

def c7Table : Table := ⟨["Asset Name"], [[some "x"]]⟩

def c7Read : String → Except String Table := fun _ => .error "bad file"

def c8Table : Table :=
  ⟨["Device", "Lifecycle Status", "Tier"],
   [[some "srv1", some "Obsolete", some "1"]]⟩

def c8Env : Env :=
  { download_sheet_as_xlsx := fun _ dir => .ok (dir ++ "/sheet.xlsx"),
    read_excel := fun _ => .ok c8Table,
    upload_to_drive := fun _ => .ok "fileid",
    post_generate_market_reports := fun _ =>
      .ok ["http://r/a.docx", "http://r/b.pptx", "http://r/c.pdf"],
    get_url := fun u => if u == "http://r/b.pptx" then .error "404" else .ok () }

def c9Read : String → Except String Table := fun p =>
  if p == "inv.xlsx" then .ok emptyTable else .error "no file"

/-! ### Claim theorems -/

/-- C1 (amended): a failure to download any input file is NOT absorbed
per-file: the exception propagates out of the staging loop to the run-level
handler, the run returns an error result, and insight extraction is never
reached — no partial staging survives. -/
theorem c1_download_failure_aborts_staging (env : Env) (sid em : String)
    (files : List InputFile) (lp : String) (f : InputFile) (e : String)
    (hmem : f ∈ files)
    (hdl : env.download_sheet_as_xlsx f.drive_url lp = .error e) :
    (∃ e2, (process_market_gap env sid em files lp).outcome = Except.error e2) ∧
    (process_market_gap env sid em files lp).extracted = none ∧
    (process_market_gap env sid em files lp).staged = [] := by
  obtain ⟨e2, hst⟩ :=
    stageLoop_error_of_download_error env lp files ([], emptyTable, emptyTable) f e hmem hdl
  unfold process_market_gap
  rw [hst]
  exact ⟨⟨e2, rfl⟩, rfl, rfl⟩

/-- C1 counterexample: with two input files whose first download times out
and whose second would succeed, the run ends in an error and extraction is
never reached — the claim that the failed file is dropped while the rest
still stage and extract is false. -/
theorem c1_counterexample :
    (process_market_gap c1Env "s1" "a@b"
        [⟨"bad.xlsx", "https://docs.google.com/d/bad"⟩,
         ⟨"hw_inventory.xlsx", "https://docs.google.com/d/good"⟩] "/tmp/s1").outcome
      = Except.error "timeout" ∧
    (process_market_gap c1Env "s1" "a@b"
        [⟨"bad.xlsx", "https://docs.google.com/d/bad"⟩,
         ⟨"hw_inventory.xlsx", "https://docs.google.com/d/good"⟩] "/tmp/s1").extracted
      = none := by
  exact ⟨rfl, rfl⟩

/-- C1 witness: the amended theorem applied to a concrete failing download. -/
theorem c1_witness :
    (∃ e2, (process_market_gap c1Env "s1" "a@b"
        [⟨"bad.xlsx", "https://docs.google.com/d/bad"⟩] "/tmp/s1").outcome
          = Except.error e2) ∧
    (process_market_gap c1Env "s1" "a@b"
        [⟨"bad.xlsx", "https://docs.google.com/d/bad"⟩] "/tmp/s1").extracted = none ∧
    (process_market_gap c1Env "s1" "a@b"
        [⟨"bad.xlsx", "https://docs.google.com/d/bad"⟩] "/tmp/s1").staged = [] := by
  exact c1_download_failure_aborts_staging c1Env "s1" "a@b"
    [⟨"bad.xlsx", "https://docs.google.com/d/bad"⟩] "/tmp/s1"
    ⟨"bad.xlsx", "https://docs.google.com/d/bad"⟩ "timeout"
    (List.mem_singleton.mpr rfl) rfl

/-- C2 (amended): the chart stage keys off column presence, not row count.
The pipeline always constructs each label DataFrame with Tier and Count
columns, so a label whose tier_counts is empty still yields a tier chart
(over an empty distribution); a label produces no chart only when its table
has none of the trigger columns. -/
theorem c2_tier_chart_from_column_presence :
    (∀ hw_tc sw_tc : List (String × Nat),
      generate_visual_charts
          [("hardware_insights", tierDf hw_tc), ("software_insights", tierDf sw_tc)]
          "charts"
        = [("hardware_insights_tier", "charts/hardware_insights_tier_pie.png"),
           ("software_insights_tier", "charts/software_insights_tier_pie.png")]) ∧
    generate_visual_charts [("hardware_insights", ⟨["Label"], []⟩)] "charts" = [] :=
  ⟨fun _ _ => rfl, rfl⟩

/-- C2 counterexample: a label with empty tier_counts still produces a chart
artifact, because the DataFrame built by the pipeline has a Tier column even
when it has no rows. -/
theorem c2_counterexample :
    generate_visual_charts [("hardware_insights", tierDf [])] "charts"
      = [("hardware_insights_tier", "charts/hardware_insights_tier_pie.png")] ∧
    generate_visual_charts [("hardware_insights", tierDf [])] "charts" ≠ [] :=
  ⟨rfl, by decide⟩

/-- C3 (amended): both extracted lists preserve source row order and
multiplicity and are NOT de-duplicated: recommendations is exactly the
sequence of non-null Recommendation values in row order (duplicates and empty
strings included), and obsolete is exactly the sequence of first-column
values of the rows whose Lifecycle Status matches "obsolete", in row order;
in each list, the count of every value equals its number of matching source
rows. -/
theorem c3_order_and_multiplicity (df : Table) (j k : Nat)
    (hj : findColByLower df "recommendation" = some j)
    (hk : findColByLower df "lifecycle status" = some k) :
    ((extractTable df).recommendations = df.rows.filterMap (fun r => r.getD j none) ∧
     ∀ v, (extractTable df).recommendations.count v
        = (df.rows.filter (fun r => r.getD j none == some v)).length) ∧
    ((extractTable df).obsolete
        = (df.rows.filter
            (fun r => strLower (cellStr (r.getD k none)) == "obsolete")).map
            (fun r => cellStr (r.getD 0 none)) ∧
     ∀ v, (extractTable df).obsolete.count v
        = ((df.rows.filter
            (fun r => strLower (cellStr (r.getD k none)) == "obsolete")).filter
            (fun r => cellStr (r.getD 0 none) == v)).length) := by
  have hrec : (extractTable df).recommendations
      = df.rows.filterMap (fun r => r.getD j none) := by
    simp [extractTable, hj]
  have hobs : (extractTable df).obsolete
      = (df.rows.filter
          (fun r => strLower (cellStr (r.getD k none)) == "obsolete")).map
          (fun r => cellStr (r.getD 0 none)) := by
    simp [extractTable, hk]
  refine ⟨⟨hrec, fun v => ?_⟩, hobs, fun v => ?_⟩
  · rw [hrec]; exact count_filterMap_eq_length_filter _ v df.rows
  · rw [hobs]; exact count_map_eq_length_filter _ v _

/-- C3 counterexample: a table with two identical rows (same Item, both
obsolete, same Recommendation) extracts both occurrences into both lists —
neither the obsolete list nor the recommendations list is de-duplicated. -/
theorem c3_counterexample :
    (extractTable c3Table).recommendations = ["upgrade", "upgrade"] ∧
    (extractTable c3Table).obsolete = ["a", "a"] ∧
    ¬ (extractTable c3Table).recommendations.Nodup ∧
    ¬ (extractTable c3Table).obsolete.Nodup :=
  ⟨rfl, rfl, by decide, by decide⟩

/-- C3 witness: the amended theorem applied to the duplicate-value table, for
both the recommendations and the obsolete list. -/
theorem c3_amended_witness :
    (extractTable c3Table).recommendations.count "upgrade"
      = (c3Table.rows.filter (fun r => r.getD 2 none == some "upgrade")).length ∧
    (extractTable c3Table).obsolete.count "a"
      = ((c3Table.rows.filter
          (fun r => strLower (cellStr (r.getD 1 none)) == "obsolete")).filter
          (fun r => cellStr (r.getD 0 none) == "a")).length := by
  exact ⟨(c3_order_and_multiplicity c3Table 2 1 rfl rfl).1.2 "upgrade",
         (c3_order_and_multiplicity c3Table 2 1 rfl rfl).2.2 "a"⟩

/-- C4 (amended): the sheet download, report dispatch and artifact download
set explicit timeouts (30, 120 and 60 seconds), but the raw file download in
process_market_gap.download_file and the Google Drive API calls set none, so
those calls can block a worker indefinitely. -/
theorem c4_timeout_audit :
    (outboundCalls.filter (fun c => c.timeoutSeconds.isSome)).map OutboundCall.timeoutSeconds
      = [some 30, some 120, some 60] ∧
    (outboundCalls.filter (fun c => c.timeoutSeconds.isNone)).map OutboundCall.site
      = ["drive_utils.upload_to_drive: drive_service.files().create(...).execute()",
         "process_market_gap.download_file: requests.get(url)",
         "process_market_gap.get_or_create_drive_folder / upload_to_drive: drive_service.files().list or create(...).execute()"] :=
  ⟨rfl, rfl⟩

/-- C4 counterexample: not every outbound call site sets an explicit bounded
timeout — requests.get in download_file and the Drive execute() calls set
none. -/
theorem c4_counterexample :
    ¬ (∀ c ∈ outboundCalls, c.timeoutSeconds.isSome = true) := by decide

/-- C5: when the report-engine dispatch would return a non-2xx response (or
time out), the run terminates with an error result and the artifact
collection step is never attempted — nothing is downloaded or re-published.
(In this code base the run in fact already fails at payload assembly, before
dispatch, because the sections assignment on source line 188 is swallowed by
the comment; the claimed conditional holds a fortiori.) -/
theorem c5_dispatch_failure_ends_failed (env : Env) (sid em : String)
    (files : List InputFile) (lp : String)
    (hpost : ∀ p, ∃ e, env.post_generate_market_reports p = Except.error e) :
    (∃ e2, (process_market_gap env sid em files lp).outcome = Except.error e2) ∧
    (process_market_gap env sid em files lp).collected = [] ∧
    (process_market_gap env sid em files lp).dispatched = false := by
  obtain ⟨hd, hc, he⟩ := process_never_collects env sid em lp files
  exact ⟨he, hc, hd⟩

/-- C5 witness: the theorem applied to an environment whose dispatch returns
HTTP 500. -/
theorem c5_witness :
    (∃ e2, (process_market_gap c5Env "s1" "a@b" [] "/tmp/s1").outcome
        = Except.error e2) ∧
    (process_market_gap c5Env "s1" "a@b" [] "/tmp/s1").collected = [] ∧
    (process_market_gap c5Env "s1" "a@b" [] "/tmp/s1").dispatched = false := by
  exact c5_dispatch_failure_ends_failed c5Env "s1" "a@b" [] "/tmp/s1"
    (fun _ => ⟨"HTTP 500", rfl⟩)

/-- C6: when several staged files classify into the same category, the
insight record for that category equals exactly the record extracted from the
last such file in processing order — full replacement, never a merge. -/
theorem c6_last_write_wins (read : String → Except String Table)
    (files : List LocalFile) :
    (∀ f df, (files.filter (hwClassified read)).getLast? = some f →
        read f.local_path = Except.ok df →
        (extract_insights read files).1 = extractTable df) ∧
    (∀ f df, (files.filter (swClassified read)).getLast? = some f →
        read f.local_path = Except.ok df →
        (extract_insights read files).2 = extractTable df) :=
  ⟨fun f df h hr => foldl_fst_last_hw read files (emptyInsights, emptyInsights) f df h hr,
   fun f df h hr => foldl_snd_last_sw read files (emptyInsights, emptyInsights) f df h hr⟩

/-- C6 witness: two hardware files; the extracted hardware record is the one
of the second file. -/
theorem c6_witness :
    (extract_insights c6Read
        [⟨"hw_one.xlsx", "a.xlsx"⟩, ⟨"hw_two.xlsx", "b.xlsx"⟩]).1
      = extractTable c6TableB := by
  exact (c6_last_write_wins c6Read
      [⟨"hw_one.xlsx", "a.xlsx"⟩, ⟨"hw_two.xlsx", "b.xlsx"⟩]).1
    ⟨"hw_two.xlsx", "b.xlsx"⟩ c6TableB rfl rfl

/-- C7: extraction never raises on missing expected columns — absence of
Lifecycle Status, Recommendation or Tier yields the corresponding empty
value, and a file that fails to parse is skipped without changing the result
of the batch. -/
theorem c7_missing_columns_degrade (df : Table)
    (read : String → Except String Table) :
    ((∀ c ∈ df.columns, ¬ strLower c = "lifecycle status") →
        (extractTable df).obsolete = []) ∧
    ((∀ c ∈ df.columns, ¬ strLower c = "recommendation") →
        (extractTable df).recommendations = []) ∧
    ((∀ c ∈ df.columns, ¬ strLower c = "tier") →
        (extractTable df).tier_counts = []) ∧
    (∀ (l1 l2 : List LocalFile) (f : LocalFile) (e : String),
        read f.local_path = Except.error e →
        extract_insights read (l1 ++ f :: l2) = extract_insights read (l1 ++ l2)) := by
  refine ⟨?_, ?_, ?_, ?_⟩
  · intro h; simp [extractTable, findColByLower_eq_none df _ h]
  · intro h; simp [extractTable, findColByLower_eq_none df _ h]
  · intro h; simp [extractTable, findColByLower_eq_none df _ h]
  · intro l1 l2 f e hre
    unfold extract_insights
    rw [List.foldl_append, List.foldl_append, List.foldl_cons,
      insightStep_of_read_error read _ f e hre]

/-- C7 witness: a table with only an Asset Name column yields all-empty
insight fields, and an unparsable file in the middle of a batch leaves the
batch result unchanged. -/
theorem c7_witness :
    (extractTable c7Table).obsolete = [] ∧
    (extractTable c7Table).recommendations = [] ∧
    (extractTable c7Table).tier_counts = [] ∧
    extract_insights c7Read
        ([⟨"a.xlsx", "a.xlsx"⟩] ++ (⟨"hw_b.xlsx", "b.xlsx"⟩ : LocalFile) :: [])
      = extract_insights c7Read ([⟨"a.xlsx", "a.xlsx"⟩] ++ []) := by
  refine ⟨?_, ?_, ?_, ?_⟩
  · exact (c7_missing_columns_degrade c7Table c7Read).1 (by decide)
  · exact (c7_missing_columns_degrade c7Table c7Read).2.1 (by decide)
  · exact (c7_missing_columns_degrade c7Table c7Read).2.2.1 (by decide)
  · exact (c7_missing_columns_degrade c7Table c7Read).2.2.2
      [⟨"a.xlsx", "a.xlsx"⟩] [] ⟨"hw_b.xlsx", "b.xlsx"⟩ "bad file" rfl

/-- C8 (code bug): in a fully healthy environment — download, parse and
uploads succeed, and the report engine would return three URLs, one of which
404s — the run still ends with the NameError raised at payload assembly
(source line 188 swallows the sections assignment into a comment), so the
artifact-collection loop is dead code: nothing is collected and the run does
not complete successfully. -/
theorem c8_code_bug_eval :
    (process_market_gap c8Env "s1" "a@b"
        [⟨"hw_inventory.xlsx", "u"⟩] "/tmp/s1").outcome
      = Except.error nameErrorMsg ∧
    (process_market_gap c8Env "s1" "a@b"
        [⟨"hw_inventory.xlsx", "u"⟩] "/tmp/s1").collected = [] ∧
    (process_market_gap c8Env "s1" "a@b"
        [⟨"hw_inventory.xlsx", "u"⟩] "/tmp/s1").dispatched = false := by
  exact ⟨rfl, rfl, rfl⟩

/-- C9: extraction over no staged files returns the two all-empty insight
records, and more generally a category with no classified source file keeps
the all-empty zero value. -/
theorem c9_empty_extraction (read : String → Except String Table) :
    extract_insights read [] = (emptyInsights, emptyInsights) ∧
    (∀ files, (∀ f ∈ files, hwClassified read f = false) →
        (extract_insights read files).1 = emptyInsights) ∧
    (∀ files, (∀ f ∈ files, swClassified read f = false) →
        (extract_insights read files).2 = emptyInsights) :=
  ⟨rfl,
   fun files h => foldl_fst_of_no_hw read files (emptyInsights, emptyInsights) h,
   fun files h => foldl_snd_of_no_sw read files (emptyInsights, emptyInsights) h⟩

/-- C9 witness: the theorem applied to the empty batch and to a batch whose
only file matches neither category. -/
theorem c9_witness :
    extract_insights c9Read [] = (emptyInsights, emptyInsights) ∧
    (extract_insights c9Read [⟨"inventory.xlsx", "inv.xlsx"⟩]).1 = emptyInsights ∧
    (extract_insights c9Read [⟨"inventory.xlsx", "inv.xlsx"⟩]).2 = emptyInsights := by
  refine ⟨(c9_empty_extraction c9Read).1,
    (c9_empty_extraction c9Read).2.1 _ (by decide),
    (c9_empty_extraction c9Read).2.2 _ (by decide)⟩

/-- C10: the front-door file scan consults only file_1 .. file_9 keys: at
most 9 files are ever passed on, the scan is insensitive to any other request
fields (so file_N entries with N at or above 10 are silently ignored), and a
request whose scan yields no files is rejected with HTTP 400 and no pipeline
start. -/
theorem c10_file_scan_bounds :
    (∀ data : List (String × String), (extractFiles data).length ≤ 9) ∧
    (∀ d1 d2 : List (String × String),
        (∀ k ∈ recognizedFileKeys, d1.lookup k = d2.lookup k) →
        extractFiles d1 = extractFiles d2) ∧
    (∀ data fs, (start_market_gap data).2 = some fs → fs.length ≤ 9) ∧
    (∀ data, extractFiles data = [] → start_market_gap data = (400, none)) := by
  have hlen : ∀ data : List (String × String), (extractFiles data).length ≤ 9 := by
    intro data
    unfold extractFiles
    exact le_trans (List.length_filterMap_le _ _) (by simp)
  have hcong : ∀ d1 d2 : List (String × String),
      (∀ k ∈ recognizedFileKeys, d1.lookup k = d2.lookup k) →
      extractFiles d1 = extractFiles d2 := by
    intro d1 d2 h
    unfold extractFiles
    apply filterMap_congr_mem
    intro i hi
    have hmemn : nameKey i ∈ recognizedFileKeys := by
      unfold recognizedFileKeys
      exact List.mem_flatMap.mpr ⟨i, hi, by simp⟩
    have hmemu : urlKey i ∈ recognizedFileKeys := by
      unfold recognizedFileKeys
      exact List.mem_flatMap.mpr ⟨i, hi, by simp⟩
    rw [h (nameKey i) hmemn, h (urlKey i) hmemu]
  have hrej : ∀ data, extractFiles data = [] → start_market_gap data = (400, none) := by
    intro data h
    simp [start_market_gap, h]
  refine ⟨hlen, hcong, ?_, hrej⟩
  intro data fs h
  unfold start_market_gap at h
  by_cases hcond : (falsy (data.lookup "session_id") || falsy (data.lookup "email")
      || (extractFiles data).isEmpty) = true
  · simp [hcond] at h
  · simp only [Bool.not_eq_true] at hcond
    simp only [hcond, Bool.false_eq_true, if_false, Option.some.injEq] at h
    subst h
    exact hlen data

/-- C10 witness: file_10 entries are invisible to the scan, and a request
whose only files use index 10 is rejected with 400. -/
theorem c10_witness :
    extractFiles [("file_10_name", "n"), ("file_10_url", "u")] = extractFiles [] ∧
    start_market_gap
        [("session_id", "s1"), ("email", "a@b"),
         ("file_10_name", "n"), ("file_10_url", "u")] = (400, none) := by
  constructor
  · exact c10_file_scan_bounds.2.1 _ _ (by decide)
  · exact c10_file_scan_bounds.2.2.2 _ (by decide)

end MarketGap
